import Mathlib

/-!
Shallow embedding of the svg2print geometry-safety core
(`src/lib/paperSafety.ts`, `src/lib/svgParser.ts`, and the mesh
generator) and proofs about the frozen claims.

JavaScript numbers are modelled by `JNum` (a rational, NaN, or a signed
infinity); Paper.js items by the inductive `Item`; nullable JS values by
`Option`; a geometry-kernel call that may throw by `OpResult` /
`MutResult`.  The external Paper.js kernel itself is not part of the
repository, so its behaviour is a parameter (`Kernel`); concrete sample
kernels used in witnesses are modelled from the spec and marked as such.
-/

/-- Value of a JavaScript `number`: a finite rational, NaN, or ±infinity. -/
inductive JNum where
  | num (q : ℚ)
  | nan
  | inf
  | ninf
deriving DecidableEq, Repr

namespace JNum

/-- JS `isNaN(x)`. -/
def isNaNb : JNum → Bool
  | nan => true
  | _ => false

/-- JS `isFinite(x)`. -/
def isFiniteb : JNum → Bool
  | num _ => true
  | _ => false

/-- JS `a < b` (false whenever either side is NaN). -/
def jlt : JNum → JNum → Bool
  | nan, _ => false
  | _, nan => false
  | num a, num b => decide (a < b)
  | num _, inf => true
  | num _, ninf => false
  | inf, _ => false
  | ninf, ninf => false
  | ninf, num _ => true
  | ninf, inf => true

/-- JS `a >= b` (false whenever either side is NaN). -/
def jge : JNum → JNum → Bool
  | nan, _ => false
  | _, nan => false
  | num a, num b => decide (b ≤ a)
  | num _, inf => false
  | num _, ninf => true
  | inf, _ => true
  | ninf, ninf => true
  | ninf, num _ => false
  | ninf, inf => false

/-- JS `Math.abs`. -/
def jabs : JNum → JNum
  | num q => num |q|
  | nan => nan
  | inf => inf
  | ninf => inf

/-- JS `Math.max` of two numbers (NaN-propagating). -/
def jmax : JNum → JNum → JNum
  | nan, _ => nan
  | _, nan => nan
  | inf, _ => inf
  | _, inf => inf
  | ninf, b => b
  | a, ninf => a
  | num a, num b => num (max a b)

/-- JS addition. -/
def jadd : JNum → JNum → JNum
  | nan, _ => nan
  | _, nan => nan
  | inf, ninf => nan
  | ninf, inf => nan
  | inf, _ => inf
  | _, inf => inf
  | ninf, _ => ninf
  | _, ninf => ninf
  | num a, num b => num (a + b)

/-- JS unary minus. -/
def jneg : JNum → JNum
  | num q => num (-q)
  | nan => nan
  | inf => ninf
  | ninf => inf

end JNum

/-- A Paper.js `Point` as read through its `x`/`y` properties. -/
structure JPoint where
  x : JNum
  y : JNum
deriving DecidableEq, Repr

/-- A Paper.js `Segment`: possibly-missing anchor point and the two
optional control handles (`handleIn`, `handleOut`). -/
structure Segment where
  point : Option JPoint
  handleIn : Option JPoint
  handleOut : Option JPoint
deriving DecidableEq, Repr

/-- The `width`/`height` of a Paper.js `Rectangle` (bounds). -/
structure Rect where
  width : JNum
  height : JNum
deriving DecidableEq, Repr

/-- The observable state of a Paper.js `Path` object: its `segments`
array (possibly absent / holding null entries, since callers pass `any`),
its `closed` flag, and the derived properties the validator and pipeline
read (`bounds`, `length`, `area`, `clockwise`).  `length` is `none` when
the property is not a number (the `typeof` check in `isValidPath`). -/
structure PathData where
  segments : Option (List (Option Segment))
  closed : Bool
  bounds : Option Rect
  length : Option JNum
  area : JNum
  clockwise : Bool
deriving DecidableEq, Repr

/-- A Paper.js scene item, as discriminated by the source's `instanceof`
checks: a `Path`, a `CompoundPath` (with its possibly-absent `children`
array), a `Group`/`Layer`, or any other item kind. -/
inductive Item where
  | path (data : PathData)
  | compound (children : Option (List Item))
  | group (children : List Item)
  | other

/-- Per-segment body of the validation loop in `isValidPath`
(paperSafety.ts lines 24-41): null segment or null point, non-number /
NaN / non-finite anchor coordinates, and NaN handle coordinates all
reject.  Handles are checked only with `isNaN`, not `isFinite`. -/
def segmentOk (s : Option Segment) : Bool :=
  match s with
  | none => false
  | some seg =>
    match seg.point with
    | none => false
    | some pt =>
      -- `typeof x !== 'number'` cannot fail for a JNum-valued field
      if pt.x.isNaNb || pt.y.isNaNb then false
      else if !pt.x.isFiniteb || !pt.y.isFiniteb then false
      else
        (match seg.handleIn with
         | some h => !(h.x.isNaNb || h.y.isNaNb)
         | none => true)
        &&
        (match seg.handleOut with
         | some h => !(h.x.isNaNb || h.y.isNaNb)
         | none => true)

/-- `isValidPath(path: any)` from paperSafety.ts lines 13-58.  `none`
models a null/undefined argument; a non-`Path` item fails the
`instanceof paper.Path` check. -/
def isValidPath (path : Option Item) : Bool :=
  match path with
  | none => false
  | some (Item.path p) =>
    match p.segments with
    | none => false
    | some segs =>
      if segs.length < 2 then false
      else if !(segs.all segmentOk) then false
      else
        match p.bounds with
        | none => false
        | some b =>
          if b.width.isNaNb || b.height.isNaNb then false
          else if !b.width.isFiniteb || !b.height.isFiniteb then false
          else if b.width = JNum.num 0 && b.height = JNum.num 0 then false
          else
            match p.length with
            | none => false  -- `typeof path.length !== 'number'`
            | some l =>
              if l = JNum.num 0 || l.isNaNb then false else true
  | some _ => false

/-- `isValidCompoundPath(compound: any)` from paperSafety.ts lines
63-76: non-empty `children`, and every child that is a `Path` instance
must be valid; children of any other kind are not inspected. -/
def isValidCompoundPath (compound : Option Item) : Bool :=
  match compound with
  | none => false
  | some (Item.compound ch) =>
    match ch with
    | none => false
    | some l =>
      if l.length = 0 then false
      else
        l.all fun child =>
          match child with
          | Item.path p => isValidPath (some (Item.path p))
          | _ => true
  | some _ => false

/-! ## The geometry kernel and crash containment -/

/-- Outcome of a kernel call that returns a fresh value: either the
value, or a thrown exception. -/
inductive OpResult (α : Type) where
  | ok (val : α)
  | exn
deriving DecidableEq, Repr

/-- Map over a successful kernel outcome. -/
def OpResult.map {α β : Type} (f : α → β) : OpResult α → OpResult β
  | .ok v => .ok (f v)
  | .exn => .exn

/-- Outcome of a kernel call that mutates its `Path` argument in place
(`path.closePath()`, `path.simplify(tol)`): the state the path object is
left in, both on normal return and when the call throws. -/
inductive MutResult where
  | ok (after : PathData)
  | exnAfter (after : PathData)
deriving DecidableEq, Repr

/-- State of the mutated path object after a `MutResult`. -/
def MutResult.after : MutResult → PathData
  | .ok p => p
  | .exnAfter p => p

/-- Behaviour of the external Paper.js geometry kernel.  The kernel is
not part of this repository, so each operation's behaviour is an
arbitrary parameter of the embedding.  Mutating operations return the
post-state of their argument; value-returning operations return an
`OpResult`. -/
structure Kernel where
  closePathEff : PathData → MutResult
  simplifyEff : PathData → ℚ → MutResult
  offsetPathOp : PathData → ℚ → OpResult Item
  getIntersectionsCount : PathData → OpResult Nat
  uniteOp : Item → Item → OpResult Item
  makeCompound : List PathData → OpResult (Option (List Item))

/-- How `safePaperOp`'s `instanceof` checks classify a produced value:
a `paper.Path`, a `paper.CompoundPath`, or anything else. -/
inductive ItemView where
  | pathV (p : PathData)
  | compoundV (children : Option (List Item))
  | otherV

/-- Classification of an `Item` by the `instanceof` checks. -/
def itemView : Item → ItemView
  | Item.path p => ItemView.pathV p
  | Item.compound ch => ItemView.compoundV ch
  | Item.group _ => ItemView.otherV
  | Item.other => ItemView.otherV

/-- `safePaperOp<T>(operation, operationName)` from paperSafety.ts lines
82-107.  The generic parameter `T` is modelled by `α` together with the
`instanceof` classification `view` of its runtime values; the
already-run thunk is modelled by its outcome `op`.  A thrown exception
is caught and becomes `none`; a produced `Path` or `CompoundPath` that
fails validation becomes `none`; anything else is returned as is.
(The `console.warn` logging has no observable effect and is omitted.) -/
def safePaperOp {α : Type} (view : α → ItemView) (op : OpResult α) : Option α :=
  match op with
  | .exn => none
  | .ok result =>
    match view result with
    | ItemView.pathV p =>
      if isValidPath (some (Item.path p)) then some result else none
    | ItemView.compoundV ch =>
      if isValidCompoundPath (some (Item.compound ch)) then some result else none
    | ItemView.otherV => some result

/-- `safeGetIntersections(path)` from paperSafety.ts lines 112-121,
abstracted to the number of intersections found (the only thing the
caller, preflight, reads).  The `|| []` turns a `null` wrapper result
into an empty list, here count 0; a `CurveLocation[]` is neither a
`Path` nor a `CompoundPath`, so the wrapper passes it through. -/
def safeGetIntersections (K : Kernel) (path : PathData) : Nat :=
  if !isValidPath (some (Item.path path)) then 0
  else
    match safePaperOp (fun _ => ItemView.otherV) (K.getIntersectionsCount path) with
    | some n => n
    | none => 0

/-- `safeSimplify(path, tolerance)` from paperSafety.ts lines 126-140,
in state-passing form.  The thunk mutates `path` in place and returns
the same object, so both the wrapper's `result` and the fallback `path`
in `result || path` denote the mutated object: on success, validation
failure, and exception alike the caller receives the kernel's
post-state. -/
def safeSimplify (K : Kernel) (path : PathData) (tolerance : ℚ) : PathData :=
  if !isValidPath (some (Item.path path)) || tolerance ≤ 0 then path
  else
    match K.simplifyEff path tolerance with
    | MutResult.ok path' =>
      match safePaperOp itemView (OpResult.ok (Item.path path')) with
      | some _ => path'  -- `result` is the mutated object itself
      | none => path'    -- `result || path`: `path` aliases the mutated object
    | MutResult.exnAfter path' => path'  -- caught: `result || path` again

/-- `safeOffset(path, offset)` from paperSafety.ts lines 145-164.
Returns `null` for an invalid input path; returns the path unchanged for
near-zero offsets; otherwise runs the kernel's `offsetPath` under the
wrapper and falls back to the original path (`result || path`) when the
wrapper yields `null`.  The thunk's value has static type `any`, so the
result is an arbitrary `Item`. -/
def safeOffset (K : Kernel) (path : PathData) (offset : ℚ) : Option Item :=
  if !isValidPath (some (Item.path path)) then none
  else if |offset| < 1 / 1000 then some (Item.path path)  -- skip near-zero offsets
  else
    match safePaperOp itemView (K.offsetPathOp path offset) with
    | some result => some result
    | none => some (Item.path path)  -- return original if offset fails

/-- `safeClosePath(path)` from paperSafety.ts lines 169-187, in
state-passing form.  Invalid or already-closed paths are returned as
they are.  Otherwise the thunk mutates `path` in place via
`path.closePath()` and returns the same object, so - exactly as in
`safeSimplify` - the caller receives the kernel's post-state whether the
wrapper validated it, rejected it, or caught an exception. -/
def safeClosePath (K : Kernel) (path : PathData) : PathData :=
  if !isValidPath (some (Item.path path)) then path
  else if path.closed then path  -- already closed
  else
    match K.closePathEff path with
    | MutResult.ok path' =>
      match safePaperOp itemView (OpResult.ok (Item.path path')) with
      | some _ => path'  -- `result` is the mutated object itself
      | none => path'    -- `result || path`: `path` aliases the mutated object
    | MutResult.exnAfter path' => path'  -- caught: `result || path` again

/-- `safeUnite(path1, path2)` from paperSafety.ts lines 192-214: an
input that is an invalid `Path` or an invalid `CompoundPath` yields
`null`; otherwise the kernel's `unite` runs under the wrapper. -/
def safeUnite (K : Kernel) (path1 path2 : Item) : Option Item :=
  if (match path1 with
      | Item.path p => !isValidPath (some (Item.path p))
      | _ => false) then none
  else if (match path2 with
      | Item.path p => !isValidPath (some (Item.path p))
      | _ => false) then none
  else if (match path1 with
      | Item.compound ch => !isValidCompoundPath (some (Item.compound ch))
      | _ => false) then none
  else if (match path2 with
      | Item.compound ch => !isValidCompoundPath (some (Item.compound ch))
      | _ => false) then none
  else
    safePaperOp itemView (K.uniteOp path1 path2)

/-- Guarded construction step of `safeCreateAndUniteCompound`: the thunk
`new paper.CompoundPath({children: validPaths.map(p => p.clone())})`
run under `safePaperOp`.  In this value-level embedding `p.clone()` is
the identity (a clone is structurally identical to its source); the
kernel decides the children array of the constructed compound, or
throws.  JS `new` always yields a `CompoundPath` instance here, hence
the `Item.compound` wrapping. -/
def compoundConstruction (K : Kernel) (validPaths : List PathData) : Option Item :=
  safePaperOp itemView ((K.makeCompound validPaths).map Item.compound)

/-- `safeCreateAndUniteCompound(paths)` from paperSafety.ts lines
219-248.  The TS return type is `CompoundPath | null`; the embedding
returns `Option Item` so that "never a plain `Path`" is a theorem about
the final `instanceof` check rather than a typing artefact. -/
def safeCreateAndUniteCompound (K : Kernel) (paths : List PathData) : Option Item :=
  let validPaths := paths.filter fun p => isValidPath (some (Item.path p))
  if validPaths.length = 0 then none
  else
    match compoundConstruction K validPaths with
    | none => none
    | some compound =>
      match safeUnite K compound compound with
      | some (Item.compound united) => some (Item.compound united)
      | _ => some compound  -- fallback to the non-united compound

/-! ## Parsed input, settings, and preflight (svgParser.ts) -/

/-- The `ProfileSettings` record (src/types): plain real-valued
configuration fields. -/
structure ProfileSettings where
  thickness : ℚ
  baseThickness : ℚ
  offset : ℚ
  simplifyTolerance : ℚ
  removeIslandsThreshold : ℚ
  bevel : ℚ
deriving DecidableEq, Repr

/-- The `ParsedSVG` record from svgParser.ts lines 16-20. -/
structure ParsedSVG where
  paths : List PathData
  bounds : Rect
  compoundPath : Option Item

/-- Issue severity. -/
inductive Severity where
  | error
  | warning
  | info
deriving DecidableEq, Repr

/-- The distinct preflight messages of svgParser.ts, as tagged data
carrying their dynamic parts (instead of formatted strings):
`noValidPathsInSVG` = "No valid paths found in SVG",
`invalidOrDegenerate n` = "Found n invalid or degenerate path(s)",
`openPathsFound n` = "Found n open path(s)",
`noClosedPaths` = "No closed paths found - only strokes or open paths",
`highNodeCount avg` = "High node count detected (avg ...)",
`selfIntersections` = "Self-intersections detected in paths",
`tinyFeatures n` = "n tiny feature(s) will be removed",
`largeSVG d` = "Large SVG detected (... max dimension)",
`verySmallSVG d` = "Very small SVG detected (... max dimension)". -/
inductive IssueMsg where
  | noValidPathsInSVG
  | invalidOrDegenerate (n : Nat)
  | openPathsFound (n : Nat)
  | noClosedPaths
  | highNodeCount (avg : ℚ)
  | selfIntersections
  | tinyFeatures (n : Nat)
  | largeSVG (maxDim : JNum)
  | verySmallSVG (maxDim : JNum)
deriving DecidableEq, Repr

/-- A `PreflightIssue` (severity plus message; the static
`detail`/`suggestedFix` strings carry no claim-relevant data and are
folded into the message tag). -/
structure PreflightIssue where
  severity : Severity
  message : IssueMsg
deriving DecidableEq, Repr

/-- The `stats` record of a `PreflightResult`. -/
structure PreflightStats where
  pathCount : Nat
  closedPaths : Nat
  openPaths : Nat
  totalPoints : Nat
  boundingBox : Rect
  hasIntersections : Bool
  tinyIslandsCount : Nat
deriving DecidableEq, Repr

/-- A `PreflightResult`. -/
structure PreflightResult where
  passed : Bool
  issues : List PreflightIssue
  stats : PreflightStats
deriving DecidableEq, Repr

/-- Number of segments read off `path.segments.length` (0 when the
array is absent; preflight only reads it for valid paths). -/
def PathData.segCount (p : PathData) : Nat :=
  match p.segments with
  | some l => l.length
  | none => 0

/-- `preflightCheck(parsed, settings)` from svgParser.ts lines 66-238.
The kernel parameter feeds the guarded self-intersection probe.  The
issue list preserves the source's push order: invalid paths, open
paths, no closed paths, high node count, self-intersections, tiny
features, too large, too small. -/
def preflightCheck (K : Kernel) (parsed : ParsedSVG) (settings : ProfileSettings) :
    PreflightResult :=
  let paths := parsed.paths
  let bounds := parsed.bounds
  if paths.length = 0 then
    { passed := false
      issues := [⟨Severity.error, IssueMsg.noValidPathsInSVG⟩]
      stats := ⟨0, 0, 0, 0, ⟨JNum.num 0, JNum.num 0⟩, false, 0⟩ }
  else
    let closedPaths :=
      (paths.filter fun p => isValidPath (some (Item.path p)) && p.closed).length
    let openPaths :=
      (paths.filter fun p => isValidPath (some (Item.path p)) && !p.closed).length
    let invalidPathCount :=
      (paths.filter fun p => !isValidPath (some (Item.path p))).length
    let totalPoints :=
      ((paths.filter fun p => isValidPath (some (Item.path p))).map
        PathData.segCount).sum
    let invalidIssues : List PreflightIssue :=
      if 0 < invalidPathCount then
        [⟨Severity.error, IssueMsg.invalidOrDegenerate invalidPathCount⟩] else []
    let openIssues : List PreflightIssue :=
      if 0 < openPaths then
        [⟨Severity.warning, IssueMsg.openPathsFound openPaths⟩] else []
    let noClosedIssues : List PreflightIssue :=
      if closedPaths = 0 ∧ 0 < openPaths then
        [⟨Severity.error, IssueMsg.noClosedPaths⟩] else []
    -- `totalPoints / paths.length`: exact rational division (`mkRat`)
    let nodeCountIssues : List PreflightIssue :=
      if 0 < paths.length then
        (if 500 < mkRat totalPoints paths.length then
          [⟨Severity.warning, IssueMsg.highNodeCount (mkRat totalPoints paths.length)⟩]
         else [])
      else []
    -- `paths.slice(0, Math.min(3, paths.length))`, loop with break
    let hasIntersections :=
      (paths.take 3).any fun p =>
        isValidPath (some (Item.path p)) && decide (0 < safeGetIntersections K p)
    let intersectionIssues : List PreflightIssue :=
      if hasIntersections then [⟨Severity.info, IssueMsg.selfIntersections⟩] else []
    let tinyIslandsCount :=
      (paths.filter fun p =>
        isValidPath (some (Item.path p)) &&
        JNum.jlt (JNum.jabs p.area) (JNum.num settings.removeIslandsThreshold)).length
    let tinyIssues : List PreflightIssue :=
      if 0 < tinyIslandsCount then
        [⟨Severity.info, IssueMsg.tinyFeatures tinyIslandsCount⟩] else []
    let maxDimension := JNum.jmax bounds.width bounds.height
    let largeIssues : List PreflightIssue :=
      if JNum.jlt (JNum.num 300) maxDimension then
        [⟨Severity.warning, IssueMsg.largeSVG maxDimension⟩] else []
    let smallIssues : List PreflightIssue :=
      if JNum.jlt maxDimension (JNum.num 5) then
        [⟨Severity.warning, IssueMsg.verySmallSVG maxDimension⟩] else []
    let issues := invalidIssues ++ openIssues ++ noClosedIssues ++ nodeCountIssues ++
      intersectionIssues ++ tinyIssues ++ largeIssues ++ smallIssues
    -- `hasErrors = issues.some(i => i.severity === 'error'); passed = !hasErrors`
    let passed := !(issues.any fun i => decide (i.severity = Severity.error))
    { passed := passed
      issues := issues
      stats := ⟨paths.length, closedPaths, openPaths, totalPoints,
        ⟨bounds.width, bounds.height⟩, hasIntersections, tinyIslandsCount⟩ }

/-- Number of issues in a list with the given severity. -/
def countSeverity (sev : Severity) (issues : List PreflightIssue) : Nat :=
  (issues.filter fun i => decide (i.severity = sev)).length

/-- Whether an issue is the open-path diagnostic. -/
def isOpenPathIssue (i : PreflightIssue) : Bool :=
  match i.message with
  | IssueMsg.openPathsFound _ => true
  | _ => false

/-! ## The processing pipeline (svgParser.ts `processPaths`) -/

/-- The four `throw new Error(...)` sites of `processPaths`, by
message: no valid paths to process, all paths became invalid during
processing, no paths remaining after filtering, failed to create 3D
geometry. -/
inductive ProcessingError where
  | noValidPaths
  | allPathsBecameInvalid
  | noPathsRemaining
  | compoundCreationFailed
deriving DecidableEq, Repr

/-- Close-and-simplify loop of `processPaths` (svgParser.ts lines
260-282): each path is closed with `safeClosePath`, dropped if invalid
afterwards, then (when `simplifyTolerance > 0`) simplified with
`safeSimplify` and dropped if invalid afterwards; survivors are
accumulated in order. -/
def closeSimplifyStage (K : Kernel) (simplifyTolerance : ℚ) (l : List PathData) :
    List PathData :=
  l.filterMap fun path =>
    let processed := safeClosePath K path
    if !isValidPath (some (Item.path processed)) then none
    else if 0 < simplifyTolerance then
      let processed2 := safeSimplify K processed simplifyTolerance
      if !isValidPath (some (Item.path processed2)) then none
      else some processed2
    else some processed

/-- Offset loop of `processPaths` (svgParser.ts lines 295-306): each
survivor is offset with `safeOffset`; the offset result is kept when it
is a valid path, otherwise the pre-offset path is kept. -/
def offsetStage (K : Kernel) (offset : ℚ) (l : List PathData) : List PathData :=
  l.map fun path =>
    match safeOffset K path offset with
    | some (Item.path offsetPath) =>
      if isValidPath (some (Item.path offsetPath)) then offsetPath else path
    | _ => path

/-- The conditional offset phase (svgParser.ts lines 293-309): the
offset loop runs only when `|settings.offset| > 0.001`. -/
def offsetPhase (K : Kernel) (settings : ProfileSettings) (l : List PathData) :
    List PathData :=
  if 1 / 1000 < |settings.offset| then offsetStage K settings.offset l else l

/-- Tiny-island filter of `processPaths` (svgParser.ts lines 312-316),
applied only when `removeIslandsThreshold > 0`. -/
def islandFilterPhase (settings : ProfileSettings) (l : List PathData) :
    List PathData :=
  if 0 < settings.removeIslandsThreshold then
    l.filter fun path =>
      isValidPath (some (Item.path path)) &&
      JNum.jge (JNum.jabs path.area) (JNum.num settings.removeIslandsThreshold)
  else l

/-- `processPaths(parsed, settings)` from svgParser.ts lines 240-338,
as a value-level pipeline: the returned compound (or the thrown error). -/
def processPathsResult (K : Kernel) (parsed : ParsedSVG) (settings : ProfileSettings) :
    Except ProcessingError Item :=
  let validPaths := parsed.paths.filter fun p => isValidPath (some (Item.path p))
  if validPaths.length = 0 then Except.error ProcessingError.noValidPaths
  else
    let processedPaths := closeSimplifyStage K settings.simplifyTolerance validPaths
    if processedPaths.length = 0 then Except.error ProcessingError.allPathsBecameInvalid
    else
      let finalPaths := islandFilterPhase settings (offsetPhase K settings processedPaths)
      if finalPaths.length = 0 then Except.error ProcessingError.noPathsRemaining
      else
        match safeCreateAndUniteCompound K finalPaths with
        | some compound => Except.ok compound
        | none => Except.error ProcessingError.compoundCreationFailed

/-- In-place effect of `processPaths` on one valid `Path` object from
`parsed.paths`.  `safeClosePath` and `safeSimplify` return the very
object they were given after mutating it with `path.closePath()` /
`path.simplify(tol)` (see their definitions), so the object referenced
by `parsed.paths` ends up in this state; a path dropped for becoming
invalid has still been mutated.  The later stages do not mutate these
objects: `offsetPath` builds a fresh path, the island filter only
filters, and `safeCreateAndUniteCompound` clones before constructing. -/
def closeSimplifyEffect (K : Kernel) (simplifyTolerance : ℚ) (p : PathData) : PathData :=
  let p1 := safeClosePath K p
  if !isValidPath (some (Item.path p1)) then p1
  else if 0 < simplifyTolerance then safeSimplify K p1 simplifyTolerance
  else p1

/-- State of the `parsed.paths` array after `processPaths` returns (or
throws): paths that failed the initial `isValidPath` filter are
untouched; every valid path has received the in-place close/simplify
effect.  (When the initial filter leaves nothing, the map below is the
identity, matching the early throw.) -/
def processPathsPost (K : Kernel) (parsed : ParsedSVG) (settings : ProfileSettings) :
    List PathData :=
  parsed.paths.map fun p =>
    if isValidPath (some (Item.path p)) then
      closeSimplifyEffect K settings.simplifyTolerance p
    else p

/-! ## The mesh generator (src/unnamed/part_000) -/

/-- A drawing command issued on a `THREE.Shape` while walking a path's
segments (the y coordinate is flipped for the THREE coordinate system
at the call sites). -/
inductive Cmd where
  | moveTo (x y : JNum)
  | lineTo (x y : JNum)
  | bezierCurveTo (c1x c1y c2x c2y x y : JNum)
deriving DecidableEq, Repr

/-- A `THREE.Shape`: its command list plus the command lists of the
shapes pushed into its `holes`. -/
structure Shape where
  cmds : List Cmd
  holes : List (List Cmd)
deriving DecidableEq, Repr

/-- JS `handle.length > 0` for a Paper.js point used as a handle:
the Euclidean norm is NaN when a coordinate is NaN (so the comparison
is false), infinite (hence positive) when a coordinate is infinite,
and positive for finite coordinates iff the vector is nonzero. -/
def handleLengthPos (h : JPoint) : Bool :=
  if h.x.isNaNb || h.y.isNaNb then false
  else if !h.x.isFiniteb || !h.y.isFiniteb then true
  else !(h.x = JNum.num 0 && h.y = JNum.num 0)

/-- `path.segments.indexOf(segment)`: index of the first occurrence.
The looked-up segment always comes from the array itself, so the JS
miss case (-1) cannot arise. -/
def idxOfSeg (l : List (Option Segment)) (s : Option Segment) : Nat :=
  match l with
  | [] => 0
  | a :: rest => if a = s then 0 else idxOfSeg rest s + 1

/-- Body of the `path.segments.forEach` loop in `pathToShapes`
(part_000 lines 99-148), threading the `first` flag and the commands
issued so far.  Null segments and NaN anchors are skipped; the first
drawn segment is a `moveTo`; a segment whose incoming handle has
positive length draws a cubic curve from the previous segment when that
segment and its outgoing handle exist with non-NaN coordinates, and
degrades to a straight line otherwise. -/
def shapeStep (segs : List (Option Segment)) (acc : Bool × List Cmd)
    (sOpt : Option Segment) : Bool × List Cmd :=
  let first := acc.1
  let cmds := acc.2
  match sOpt with
  | none => (first, cmds)  -- `if (!segment || ...)` skip
  | some segment =>
    match segment.point with
    | none => (first, cmds)  -- `... || !segment.point)` skip
    | some point =>
      if point.x.isNaNb || point.y.isNaNb then (first, cmds)  -- NaN skip
      else if first then
        (false, cmds ++ [Cmd.moveTo point.x (JNum.jneg point.y)])
      else
        let line := cmds ++ [Cmd.lineTo point.x (JNum.jneg point.y)]
        match segment.handleIn with
        | none => (first, line)
        | some hIn =>
          if !handleLengthPos hIn then (first, line)
          else
            let segmentIndex := idxOfSeg segs sOpt
            let prevSeg : Option Segment :=
              if 0 < segmentIndex then segs.getD (segmentIndex - 1) none else none
            match prevSeg with
            | none => (first, line)
            | some prev =>
              match prev.point, prev.handleOut with
              | some ppt, some pout =>
                if !ppt.x.isNaNb && !ppt.y.isNaNb &&
                   !pout.x.isNaNb && !pout.y.isNaNb &&
                   !hIn.x.isNaNb && !hIn.y.isNaNb then
                  (first, cmds ++ [Cmd.bezierCurveTo
                    (JNum.jadd ppt.x pout.x)
                    (JNum.jneg (JNum.jadd ppt.y pout.y))
                    (JNum.jadd point.x hIn.x)
                    (JNum.jneg (JNum.jadd point.y hIn.y))
                    point.x (JNum.jneg point.y)])
                else (first, line)
              | _, _ => (first, line)

/-- Commands of the `THREE.Shape` built from a segments array. -/
def buildShapeCmds (segs : List (Option Segment)) : List Cmd :=
  (segs.foldl (shapeStep segs) (true, [])).2

/-- Hole attachment at the end of the per-child block (part_000 lines
151-158): a clockwise path becomes a hole of the most recent shape when
one exists, otherwise a new solid shape. -/
def attachShape (shapes : List Shape) (isHole : Bool) (cmds : List Cmd) : List Shape :=
  if isHole && !shapes.isEmpty then
    match shapes.getLast? with
    | some last => shapes.dropLast ++ [{ last with holes := last.holes ++ [cmds] }]
    | none => shapes  -- unreachable: `shapes.length > 0`
  else shapes ++ [⟨cmds, []⟩]

/-- Per-child body of `pathToShapes` (part_000 lines 82-163): non-Path
children are skipped, invalid paths are skipped, paths with fewer than
3 segments are skipped; otherwise a shape is built and attached.  (The
surrounding `try` cannot fire in this value-level model: shape building
is pure.) -/
def pathToShapesStep (shapes : List Shape) (child : Item) : List Shape :=
  match child with
  | Item.path p =>
    if !isValidPath (some (Item.path p)) then shapes
    else
      match p.segments with
      | none => shapes  -- `!path.segments`
      | some segs =>
        if segs.length < 3 then shapes
        else attachShape shapes p.clockwise (buildShapeCmds segs)
  | _ => shapes  -- `!(child instanceof paper.Path)`

/-- `pathToShapes(compoundPath)` from part_000 lines 74-166, taking the
compound's `children` array. -/
def pathToShapes (children : Option (List Item)) : List Shape :=
  match children with
  | none => []
  | some l =>
    if l.length = 0 then []
    else l.foldl pathToShapesStep []

/-- The `children` array of an item (as read by `compoundPath.children`
inside `generateMesh`/`pathToShapes`). -/
def Item.childrenOf : Item → Option (List Item)
  | Item.compound ch => ch
  | _ => none

/-- Outcome of `generateMesh` up to the hand-off to the external
THREE.js extrusion: the two `throw new Error` sites at part_000 lines
12-21 ("Invalid compound path passed to mesh generator", "No valid
shapes generated from SVG geometry"), or proceeding to extrude the
generated shapes. -/
inductive MeshOutcome where
  | invalidCompoundError
  | noShapesError
  | proceedsToExtrude (shapes : List Shape)

/-- `generateMesh(compoundPath, settings)` from part_000 lines 7-21,
modelled up to the extrusion hand-off (extrusion, base creation and
buffer merging are THREE.js kernel work outside this repository and do
not affect the claims). -/
def generateMesh (cp : Item) : MeshOutcome :=
  if !isValidCompoundPath (some cp) then MeshOutcome.invalidCompoundError
  else
    let shapes := pathToShapes cp.childrenOf
    if shapes.length = 0 then MeshOutcome.noShapesError
    else MeshOutcome.proceedsToExtrude shapes

/-! ## Spec-side predicates and concrete sample data -/

/-- Modelled from the spec: the path-validity predicate exactly as the
spec states it ("true iff p has ≥2 segments, every segment's anchor and
(if present) handle coordinates are finite numbers, the bounding box
has non-NaN finite width/height and is not the degenerate 0×0 box, and
path length is a positive finite number"), for comparison with the
implemented `isValidPath`. -/
def specValidPath (p : PathData) : Bool :=
  p.segments.any fun segs =>
    decide (2 ≤ segs.length) &&
    (segs.all fun s => s.any fun seg =>
      (seg.point.any fun pt => pt.x.isFiniteb && pt.y.isFiniteb) &&
      (seg.handleIn.all fun h => h.x.isFiniteb && h.y.isFiniteb) &&
      (seg.handleOut.all fun h => h.x.isFiniteb && h.y.isFiniteb)) &&
    (p.bounds.any fun b =>
      b.width.isFiniteb && b.height.isFiniteb &&
      !(b.width = JNum.num 0 && b.height = JNum.num 0)) &&
    (p.length.any fun l => l.isFiniteb && JNum.jlt (JNum.num 0) l)

/-- The validity predicate `isValidPath` actually implements on a
`Path` object, in spec vocabulary: at least 2 segments, each present
with a finite anchor; handles, when present, only need non-NaN
coordinates (infinite handles are accepted); bounds present, finite and
not the 0×0 box; `length` a number that is neither 0 nor NaN (an
infinite or negative length is accepted). -/
def actualValidPath (p : PathData) : Bool :=
  p.segments.any fun segs =>
    decide (2 ≤ segs.length) &&
    (segs.all fun s => s.any fun seg =>
      (seg.point.any fun pt => pt.x.isFiniteb && pt.y.isFiniteb) &&
      (seg.handleIn.all fun h => !h.x.isNaNb && !h.y.isNaNb) &&
      (seg.handleOut.all fun h => !h.x.isNaNb && !h.y.isNaNb)) &&
    (p.bounds.any fun b =>
      b.width.isFiniteb && b.height.isFiniteb &&
      !(b.width = JNum.num 0 && b.height = JNum.num 0)) &&
    (p.length.any fun l => !(l = JNum.num 0) && !l.isNaNb)

/-- The `PathData` of the `Path` children of a children array, in
order (non-`Path` children contribute nothing). -/
def pathChildren (l : List Item) : List PathData :=
  l.filterMap fun child =>
    match child with
    | Item.path p => some p
    | _ => none

/-- Modelled from the spec: a concrete sample behaviour of the external
Paper.js kernel (which is not part of this repository), used only to
instantiate witnesses and counterexamples.  Its `closePath` "closes an
open path" (sets the closed flag); its simplify and offset return the
path geometrically unchanged; it reports no self-intersections; its
union returns its first argument; compound construction yields a
compound whose children are the given paths. -/
def K0 : Kernel where
  closePathEff p := MutResult.ok { p with closed := true }
  simplifyEff p _ := MutResult.ok p
  offsetPathOp p _ := OpResult.ok (Item.path p)
  getIntersectionsCount _ := OpResult.ok 0
  uniteOp a _ := OpResult.ok a
  makeCompound l := OpResult.ok (some (l.map Item.path))

/-- A segment with a finite anchor and no handles. -/
def plainSeg (x y : ℚ) : Option Segment :=
  some ⟨some ⟨JNum.num x, JNum.num y⟩, none, none⟩

/-- An open triangular path: 3 plain segments, closed flag false,
10×10 bounds, positive finite length, area 50. -/
def tri : PathData where
  segments := some [plainSeg 0 0, plainSeg 10 0, plainSeg 0 10]
  closed := false
  bounds := some ⟨JNum.num 10, JNum.num 10⟩
  length := some (JNum.num 34)
  area := JNum.num 50
  clockwise := false

/-- An invalid path: a single zero-length segment with degenerate
bounds. -/
def pBad : PathData where
  segments := some [plainSeg 0 0]
  closed := false
  bounds := some ⟨JNum.num 0, JNum.num 0⟩
  length := some (JNum.num 0)
  area := JNum.num 0
  clockwise := false

/-- A path with an infinite incoming-handle x coordinate and infinite
reported length, but finite anchors and finite non-degenerate bounds. -/
def pInfHandle : PathData where
  segments := some
    [some ⟨some ⟨JNum.num 0, JNum.num 0⟩, some ⟨JNum.inf, JNum.num 0⟩, none⟩,
     plainSeg 10 0]
  closed := false
  bounds := some ⟨JNum.num 10, JNum.num 5⟩
  length := some JNum.inf
  area := JNum.num 25
  clockwise := false

/-- A valid open two-segment line path (10×0 bounds are not the 0×0
degenerate box, so it passes `isValidPath`). -/
def lineSeg2 : PathData where
  segments := some [plainSeg 0 0, plainSeg 10 0]
  closed := false
  bounds := some ⟨JNum.num 10, JNum.num 0⟩
  length := some (JNum.num 10)
  area := JNum.num 0
  clockwise := false

/-- A parsed input holding exactly the open triangle. -/
def parsedTri : ParsedSVG where
  paths := [tri]
  bounds := ⟨JNum.num 10, JNum.num 10⟩
  compoundPath := none

/-- Settings with offset, tolerance and threshold all zero. -/
def settingsZero : ProfileSettings := ⟨2, 0, 0, 0, 0, 0⟩

/-- Settings with simplify tolerance 1 and everything else disabled. -/
def settingsTol : ProfileSettings := ⟨2, 0, 0, 1, 0, 0⟩

/-- Settings with offset 1 and everything else disabled. -/
def settingsOff : ProfileSettings := ⟨2, 0, 1, 0, 0, 0⟩

/-- Default path value used only as the `List.getD` fallback. -/
def emptyPath : PathData := ⟨none, false, none, none, JNum.num 0, false⟩

/-! ## Claims -/

/-- C6: `safePaperOp` is total crash containment.  In the embedding a
raised fault is the `exn` outcome; the wrapper never propagates it:
it yields `none` exactly when the operation threw or when the produced
value is a `Path`/`CompoundPath` failing validation; any `some` it
yields is the operation's own result, and a successful operation always
yields `none` or its own result - the kernel API becomes a total
function into `Option`. -/
theorem safePaperOp_total {α : Type} (view : α → ItemView) (op : OpResult α) :
    (safePaperOp view op = none ↔
      op = OpResult.exn ∨
      ∃ v, op = OpResult.ok v ∧
        ((∃ p, view v = ItemView.pathV p ∧ isValidPath (some (Item.path p)) = false) ∨
         (∃ ch, view v = ItemView.compoundV ch ∧
           isValidCompoundPath (some (Item.compound ch)) = false))) ∧
    (∀ v, safePaperOp view op = some v → op = OpResult.ok v) ∧
    (∀ v, op = OpResult.ok v →
      safePaperOp view op = none ∨ safePaperOp view op = some v) := by
  refine ⟨?_, ?_, ?_⟩
  · cases op with
    | exn => simp [safePaperOp]
    | ok v =>
      rcases hv : view v with p | ch | _
      · constructor
        · intro h
          refine Or.inr ⟨v, rfl, Or.inl ⟨p, hv, ?_⟩⟩
          by_cases hp : isValidPath (some (Item.path p)) = true
          · simp [safePaperOp, hv, hp] at h
          · simpa using hp
        · rintro (h | ⟨v', hv', hcond⟩)
          · exact absurd h (by simp)
          · injection hv' with he
            subst he
            rcases hcond with ⟨p', hview, hval⟩ | ⟨ch', hview, hval⟩
            · rw [hv] at hview
              injection hview with hpe
              subst hpe
              simp [safePaperOp, hv, hval]
            · rw [hv] at hview
              exact absurd hview (by simp)
      · constructor
        · intro h
          refine Or.inr ⟨v, rfl, Or.inr ⟨ch, hv, ?_⟩⟩
          by_cases hc : isValidCompoundPath (some (Item.compound ch)) = true
          · simp [safePaperOp, hv, hc] at h
          · simpa using hc
        · rintro (h | ⟨v', hv', hcond⟩)
          · exact absurd h (by simp)
          · injection hv' with he
            subst he
            rcases hcond with ⟨p', hview, hval⟩ | ⟨ch', hview, hval⟩
            · rw [hv] at hview
              exact absurd hview (by simp)
            · rw [hv] at hview
              injection hview with hce
              subst hce
              simp [safePaperOp, hv, hval]
      · constructor
        · intro h
          simp [safePaperOp, hv] at h
        · rintro (h | ⟨v', hv', hcond⟩)
          · exact absurd h (by simp)
          · injection hv' with he
            subst he
            rcases hcond with ⟨p', hview, hval⟩ | ⟨ch', hview, hval⟩
            · rw [hv] at hview
              exact absurd hview (by simp)
            · rw [hv] at hview
              exact absurd hview (by simp)
  · intro v h
    cases op with
    | exn => simp [safePaperOp] at h
    | ok w =>
      rcases hv : view w with p | ch | _
      · by_cases hp : isValidPath (some (Item.path p)) = true
        · simp [safePaperOp, hv, hp] at h
          simp [h]
        · simp [safePaperOp, hv, Bool.of_not_eq_true hp] at h
      · by_cases hc : isValidCompoundPath (some (Item.compound ch)) = true
        · simp [safePaperOp, hv, hc] at h
          simp [h]
        · simp [safePaperOp, hv, Bool.of_not_eq_true hc] at h
      · simp [safePaperOp, hv] at h
        simp [h]
  · intro v h
    subst h
    rcases hv : view v with p | ch | _
    · by_cases hp : isValidPath (some (Item.path p)) = true
      · exact Or.inr (by simp [safePaperOp, hv, hp])
      · exact Or.inl (by simp [safePaperOp, hv, Bool.of_not_eq_true hp])
    · by_cases hc : isValidCompoundPath (some (Item.compound ch)) = true
      · exact Or.inr (by simp [safePaperOp, hv, hc])
      · exact Or.inl (by simp [safePaperOp, hv, Bool.of_not_eq_true hc])
    · exact Or.inr (by simp [safePaperOp, hv])

/-- C6 witness: a faulting operation is contained to `none` at a
concrete instantiation. -/
theorem safePaperOp_total_witness :
    safePaperOp itemView (OpResult.exn : OpResult Item) = none :=
  (safePaperOp_total itemView OpResult.exn).1.mpr (Or.inl rfl)

/-- C2 counterexample: for an invalid path and offset 0 (which is
below the 0.001 threshold), `safeOffset` returns `null`, not the path
unchanged - the claimed "no precondition on p's validity" fails. -/
theorem safeOffset_identity_counterexample :
    isValidPath (some (Item.path pBad)) = false ∧
    |(0 : ℚ)| < 1 / 1000 ∧
    safeOffset K0 pBad 0 = none :=
  ⟨by decide, by norm_num, rfl⟩

/-- C2 amended: for every kernel, every *valid* path `p` and every
offset `d` with `|d| < 0.001`, `safeOffset(p, d)` returns `p`
unchanged; the validity precondition cannot be dropped (an invalid
path yields `null` instead). -/
theorem safeOffset_identity (K : Kernel) (p : PathData) (d : ℚ)
    (hval : isValidPath (some (Item.path p)) = true)
    (hd : |d| < 1 / 1000) :
    safeOffset K p d = some (Item.path p) := by
  unfold safeOffset
  rw [if_neg (by simp [hval]), if_pos hd]

/-- C2 witness: the amended identity at the concrete valid triangle
and offset 0. -/
theorem safeOffset_identity_witness :
    safeOffset K0 tri 0 = some (Item.path tri) :=
  safeOffset_identity K0 tri 0 (by decide) (by norm_num)

/-- C5 counterexample: `safeClosePath` on an invalid path returns the
path itself, unchanged - it has no `none` outcome at all, contradicting
the claim that it returns none for invalid input. -/
theorem safeClosePath_invalid_counterexample :
    isValidPath (some (Item.path pBad)) = false ∧
    safeClosePath K0 pBad = pBad :=
  ⟨by decide, by decide⟩

/-- C5 amended: an invalid input makes `safeClosePath` return its input
unchanged (it never returns none), while `safeUnite(a, b)` returns null
whenever either argument is an invalid `Path` or an invalid
`CompoundPath`. -/
theorem safeClosePath_safeUnite_invalid (K : Kernel) :
    (∀ p, isValidPath (some (Item.path p)) = false → safeClosePath K p = p) ∧
    (∀ a b,
      ((∃ p, a = Item.path p ∧ isValidPath (some (Item.path p)) = false) ∨
       (∃ p, b = Item.path p ∧ isValidPath (some (Item.path p)) = false) ∨
       (∃ ch, a = Item.compound ch ∧
         isValidCompoundPath (some (Item.compound ch)) = false) ∨
       (∃ ch, b = Item.compound ch ∧
         isValidCompoundPath (some (Item.compound ch)) = false)) →
      safeUnite K a b = none) := by
  constructor
  · intro p hp
    unfold safeClosePath
    rw [if_pos (by simp [hp])]
  · intro a b hbad
    unfold safeUnite
    split_ifs with h1 h2 h3 h4
    · rfl
    · rfl
    · rfl
    · rfl
    · exfalso
      rcases hbad with ⟨p, ha, hp⟩ | ⟨p, hb, hp⟩ | ⟨ch, ha, hc⟩ | ⟨ch, hb, hc⟩
      · subst ha
        exact h1 (by simp [hp])
      · subst hb
        exact h2 (by simp [hp])
      · subst ha
        exact h3 (by simp [hc])
      · subst hb
        exact h4 (by simp [hc])

/-- C5 witness: the amended behaviour at concrete inputs - the invalid
single-segment path is returned unchanged by `safeClosePath`, and
uniting it with any other item yields null. -/
theorem safeClosePath_safeUnite_invalid_witness :
    safeClosePath K0 pBad = pBad ∧
    safeUnite K0 (Item.path pBad) Item.other = none := by
  constructor
  · exact (safeClosePath_safeUnite_invalid K0).1 pBad (by decide)
  · exact (safeClosePath_safeUnite_invalid K0).2 (Item.path pBad) Item.other
      (Or.inl ⟨pBad, rfl, by decide⟩)

/-- The child-validation loop of `isValidCompoundPath` checks exactly
the `Path`-instance children. -/
theorem pathChildren_all (l : List Item) :
    (l.all fun child => match child with
      | Item.path p => isValidPath (some (Item.path p))
      | _ => true) =
    ((pathChildren l).all fun p => isValidPath (some (Item.path p))) := by
  induction l with
  | nil => rfl
  | cons c t ih =>
    cases c <;> simp [pathChildren, List.all_cons] at ih ⊢ <;> rw [← ih]

/-- C9: `isValidCompoundPath` inspects only `Path`-instance children:
for a compound with a present children array the verdict is exactly
"children non-empty and every `Path` child valid", so children of any
other kind (groups, rasters, nested compounds, ...) are never checked
and the compound is judged valid regardless of their contents. -/
theorem isValidCompoundPath_only_path_children (l : List Item) :
    isValidCompoundPath (some (Item.compound (some l))) =
      (!(l.length = 0) &&
        ((pathChildren l).all fun p => isValidPath (some (Item.path p)))) := by
  unfold isValidCompoundPath
  by_cases h : l.length = 0
  · simp [h]
  · simp only [if_neg h]
    rw [pathChildren_all]
    simp [h]

/-- The segment-loop body of `isValidPath`, restated as the conjunction
it computes: present segment, present finite anchor, non-NaN handles. -/
theorem segmentOk_characterization (s : Option Segment) :
    segmentOk s = (s.any fun seg =>
      (seg.point.any fun pt => pt.x.isFiniteb && pt.y.isFiniteb) &&
      (seg.handleIn.all fun h => !h.x.isNaNb && !h.y.isNaNb) &&
      (seg.handleOut.all fun h => !h.x.isNaNb && !h.y.isNaNb)) := by
  rcases s with _ | ⟨pt, hin, hout⟩
  · rfl
  · rcases pt with _ | ⟨px, py⟩
    · simp [segmentOk]
    · cases px <;> cases py <;>
        rcases hin with _ | ⟨hx, hy⟩ <;> rcases hout with _ | ⟨ox, oy⟩ <;>
          simp [segmentOk, JNum.isNaNb, JNum.isFiniteb, Bool.not_or]


/-- C3 counterexample: a path with an infinite incoming-handle
coordinate and an infinite reported perimeter length is accepted by
`isValidPath`, although the claimed characterization (finite handles,
positive finite length) rejects it. -/
theorem isValidPath_spec_counterexample :
    isValidPath (some (Item.path pInfHandle)) = true ∧
    specValidPath pInfHandle = false :=
  ⟨by decide, by decide⟩

/-- C3 amended: the exact characterization of `isValidPath` on a
`Path` object - at least 2 segments, all present with finite anchors;
handles, when present, only need to be non-NaN (infinite handle
coordinates are accepted); bounds present, finite and not the 0×0 box;
and a `length` that is a number other than 0 and not NaN (an infinite
length is accepted).  Finiteness of handles and positivity/finiteness
of the perimeter length are not required, unlike the claim's wording. -/
theorem isValidPath_characterization (p : PathData) :
    isValidPath (some (Item.path p)) = actualValidPath p := by
  rcases p with ⟨segs, closed, bounds, len, area, cw⟩
  rcases segs with _ | segs
  · rfl
  · unfold isValidPath actualValidPath
    simp only [Option.any_some]
    rw [show segmentOk = (fun s : Option Segment => (s.any fun seg =>
      (seg.point.any fun pt => pt.x.isFiniteb && pt.y.isFiniteb) &&
      (seg.handleIn.all fun h => !h.x.isNaNb && !h.y.isNaNb) &&
      (seg.handleOut.all fun h => !h.x.isNaNb && !h.y.isNaNb)))
      from funext segmentOk_characterization]
    by_cases hlen : segs.length < 2
    · have h2 : ¬ (2 ≤ segs.length) := by omega
      simp [hlen, h2]
    · have h2 : 2 ≤ segs.length := by omega
      rw [if_neg hlen]
      simp only [h2, decide_true_eq_true, Bool.true_and]
      by_cases hall : (segs.all fun s : Option Segment => (s.any fun seg =>
        (seg.point.any fun pt => pt.x.isFiniteb && pt.y.isFiniteb) &&
        (seg.handleIn.all fun h => !h.x.isNaNb && !h.y.isNaNb) &&
        (seg.handleOut.all fun h => !h.x.isNaNb && !h.y.isNaNb))) = true
      · rw [hall]
        simp only [Bool.not_true, Bool.true_and, if_neg (by simp : ¬ (false = true))]
        rcases bounds with _ | ⟨bw, bh⟩
        · simp
        · rcases bw with w | _ | _ | _ <;> rcases bh with v | _ | _ | _ <;>
            simp [JNum.isNaNb, JNum.isFiniteb, Option.any_none, Option.any_some]
          by_cases hw : w = 0
          · by_cases hv : v = 0
            · simp [hw, hv]
            · simp [hw, hv]
              rcases len with _ | (q | _ | _ | _) <;>
                simp [JNum.isNaNb, Option.any_none, Option.any_some]
          · simp [hw]
            rcases len with _ | (q | _ | _ | _) <;>
              simp [JNum.isNaNb, Option.any_none, Option.any_some]
      · have hall' := Bool.of_not_eq_true hall
        rw [hall']
        simp

/-- Case analysis for one entry of the offset loop: either the offset
call produced a valid path and the entry is that path, or it did not
and the entry is the pre-offset path. -/
theorem offsetEntry_cases (p : PathData) (r : Option Item) :
    (∃ q, r = some (Item.path q) ∧ isValidPath (some (Item.path q)) = true ∧
      (match r with
        | some (Item.path offsetPath) =>
          if isValidPath (some (Item.path offsetPath)) = true then offsetPath else p
        | _ => p) = q) ∨
    ((∀ q, r = some (Item.path q) → isValidPath (some (Item.path q)) = false) ∧
      (match r with
        | some (Item.path offsetPath) =>
          if isValidPath (some (Item.path offsetPath)) = true then offsetPath else p
        | _ => p) = p) := by
  rcases r with _ | (q | ch | gch | _)
  · exact Or.inr ⟨fun q hq => Option.noConfusion hq, rfl⟩
  · by_cases hq : isValidPath (some (Item.path q)) = true
    · exact Or.inl ⟨q, rfl, hq, by simp [hq]⟩
    · refine Or.inr ⟨fun q' hq' => ?_, by simp [hq]⟩
      injection hq' with he
      injection he with he2
      subst he2
      exact Bool.of_not_eq_true hq
  · refine Or.inr ⟨fun q' hq' => ?_, rfl⟩
    injection hq' with he
    exact Item.noConfusion he
  · refine Or.inr ⟨fun q' hq' => ?_, rfl⟩
    injection hq' with he
    exact Item.noConfusion he
  · refine Or.inr ⟨fun q' hq' => ?_, rfl⟩
    injection hq' with he
    exact Item.noConfusion he

/-- C7: when `|settings.offset| > 0.001`, the offset phase of
`processPaths` never drops a path - its output has exactly the length
of the survivor list entering it, and each entry is the `safeOffset`
result when that result is a valid path, and the pre-offset path for
that one entry otherwise. -/
theorem offsetPhase_never_drops (K : Kernel) (settings : ProfileSettings)
    (l : List PathData) (h : 1 / 1000 < |settings.offset|) :
    (offsetPhase K settings l).length = l.length ∧
    ∀ i (hi : i < l.length),
      ((∃ q, safeOffset K (l.get ⟨i, hi⟩) settings.offset = some (Item.path q) ∧
        isValidPath (some (Item.path q)) = true ∧
        (offsetPhase K settings l).getD i emptyPath = q) ∨
      ((∀ q, safeOffset K (l.get ⟨i, hi⟩) settings.offset = some (Item.path q) →
          isValidPath (some (Item.path q)) = false) ∧
        (offsetPhase K settings l).getD i emptyPath = l.get ⟨i, hi⟩)) := by
  have hphase : offsetPhase K settings l = offsetStage K settings.offset l := by
    unfold offsetPhase
    rw [if_pos h]
  rw [hphase]
  unfold offsetStage
  constructor
  · exact List.length_map l _
  · intro i hi
    have hget : ∀ (f : PathData → PathData),
        (l.map f).getD i emptyPath = f (l.get ⟨i, hi⟩) := by
      intro f
      rw [List.getD_eq_getElem?_getD, List.getElem?_map,
        List.getElem?_eq_getElem hi]
      rfl
    rw [hget]
    exact offsetEntry_cases (l.get ⟨i, hi⟩)
      (safeOffset K (l.get ⟨i, hi⟩) settings.offset)

/-- C7 witness: the offset phase at offset 1 on the singleton triangle
list keeps exactly one path. -/
theorem offsetPhase_never_drops_witness :
    (offsetPhase K0 settingsOff [tri]).length = ([tri] : List PathData).length :=
  (offsetPhase_never_drops K0 settingsOff [tri] (by norm_num [settingsOff])).1

/-- A fold whose step fixes the accumulator on every list element is
the identity. -/
theorem foldl_const_of_step_id {α β : Type} (step : α → β → α) (l : List β)
    (h : ∀ c ∈ l, ∀ s, step s c = s) : ∀ a, l.foldl step a = a := by
  induction l with
  | nil => intro a; rfl
  | cons c t ih =>
    intro a
    rw [List.foldl_cons, h c (by simp)]
    exact ih (fun c' hc' s => h c' (by simp [hc']) s) a

/-- C8: mesh generation silently requires at least 3 segments per child
path - stricter than validity's 2-segment minimum: a compound that
passes `isValidCompoundPath` but whose `Path` children all have fewer
than 3 segments yields no shapes, and `generateMesh` throws the
"No valid shapes generated" error. -/
theorem meshGen_requires_three_segments (l : List Item)
    (hvalid : isValidCompoundPath (some (Item.compound (some l))) = true)
    (hsmall : ∀ item ∈ l, ∀ p, item = Item.path p →
      ∀ segs, p.segments = some segs → segs.length < 3) :
    pathToShapes (some l) = [] ∧
    generateMesh (Item.compound (some l)) = MeshOutcome.noShapesError := by
  have hstep : ∀ c ∈ l, ∀ s, pathToShapesStep s c = s := by
    intro c hc s
    rcases c with p | ch | gch | _
    · show (if (!isValidPath (some (Item.path p))) = true then s
        else match p.segments with
          | none => s
          | some segs => if segs.length < 3 then s
            else attachShape s p.clockwise (buildShapeCmds segs)) = s
      by_cases hv : isValidPath (some (Item.path p)) = true
      · rw [if_neg (by simp [hv])]
        rcases hseg : p.segments with _ | segs
        · rfl
        · have hlt := hsmall (Item.path p) hc p rfl segs hseg
          simp [hseg, hlt]
      · rw [if_pos (by simp [Bool.of_not_eq_true hv])]
    · rfl
    · rfl
    · rfl
  have hshapes : pathToShapes (some l) = [] := by
    show (if l.length = 0 then [] else l.foldl pathToShapesStep []) = []
    by_cases hl : l.length = 0
    · rw [if_pos hl]
    · rw [if_neg hl]
      exact foldl_const_of_step_id pathToShapesStep l hstep []
  refine ⟨hshapes, ?_⟩
  unfold generateMesh
  rw [if_neg (by simp [hvalid])]
  simp only [Item.childrenOf, hshapes]
  rfl

/-- C8 witness: a compound holding one valid two-segment line passes
compound validation yet produces no shapes and the no-shapes error. -/
theorem meshGen_requires_three_segments_witness :
    pathToShapes (some [Item.path lineSeg2]) = [] ∧
    generateMesh (Item.compound (some [Item.path lineSeg2])) = MeshOutcome.noShapesError := by
  apply meshGen_requires_three_segments
  · decide
  · intro item hmem p hp segs hsegs
    simp only [List.mem_singleton] at hmem
    subst hmem
    injection hp with he
    subst he
    rw [show lineSeg2.segments = some [plainSeg 0 0, plainSeg 10 0] from rfl] at hsegs
    injection hsegs with he2
    subst he2
    decide

/-- The guarded `new CompoundPath` step can only hand back a
`CompoundPath` value. -/
theorem compoundConstruction_is_compound (K : Kernel) (l : List PathData) :
    ∀ x, compoundConstruction K l = some x → ∃ ch, x = Item.compound ch := by
  intro x hx
  unfold compoundConstruction at hx
  rcases hmc : K.makeCompound l with ch | _
  · rw [hmc] at hx
    simp only [OpResult.map] at hx
    by_cases hc : isValidCompoundPath (some (Item.compound ch)) = true
    · simp [safePaperOp, itemView, hc] at hx
      exact ⟨ch, hx.symm⟩
    · simp [safePaperOp, itemView, Bool.of_not_eq_true hc] at hx
  · rw [hmc] at hx
    simp [OpResult.map, safePaperOp] at hx

/-- C10: `safeCreateAndUniteCompound` returns null or a `CompoundPath`,
never a plain `Path`: null exactly when no input path is valid or the
guarded compound construction fails; every successful result is a
compound; and when the self-union step does not yield a `CompoundPath`,
the un-united compound is returned instead. -/
theorem safeCreateAndUniteCompound_shape (K : Kernel) (paths : List PathData) :
    (safeCreateAndUniteCompound K paths = none ↔
      (paths.filter fun p => isValidPath (some (Item.path p))).length = 0 ∨
      compoundConstruction K
        (paths.filter fun p => isValidPath (some (Item.path p))) = none) ∧
    (∀ r, safeCreateAndUniteCompound K paths = some r →
      ∃ ch, r = Item.compound ch) ∧
    (∀ comp, compoundConstruction K
        (paths.filter fun p => isValidPath (some (Item.path p))) = some comp →
      (paths.filter fun p => isValidPath (some (Item.path p))).length ≠ 0 →
      (∀ u, safeUnite K comp comp ≠ some (Item.compound u)) →
      safeCreateAndUniteCompound K paths = some comp) := by
  by_cases hvp : (paths.filter fun p => isValidPath (some (Item.path p))).length = 0
  · have hres : safeCreateAndUniteCompound K paths = none := by
      show (if (paths.filter fun p => isValidPath (some (Item.path p))).length = 0
          then none
          else
            match compoundConstruction K
                (paths.filter fun p => isValidPath (some (Item.path p))) with
            | none => none
            | some compound =>
              match safeUnite K compound compound with
              | some (Item.compound united) => some (Item.compound united)
              | _ => some compound) = none
      rw [if_pos hvp]
    refine ⟨by simp [hres, hvp], ?_, ?_⟩
    · intro r hr
      rw [hres] at hr
      exact Option.noConfusion hr
    · intro comp _ hne _
      exact absurd hvp hne
  · rcases hcc : compoundConstruction K
        (paths.filter fun p => isValidPath (some (Item.path p))) with _ | comp
    · have hres : safeCreateAndUniteCompound K paths = none := by
        show (if (paths.filter fun p => isValidPath (some (Item.path p))).length = 0
            then none
            else
              match compoundConstruction K
                  (paths.filter fun p => isValidPath (some (Item.path p))) with
              | none => none
              | some compound =>
                match safeUnite K compound compound with
                | some (Item.compound united) => some (Item.compound united)
                | _ => some compound) = none
        rw [if_neg hvp, hcc]
      refine ⟨by simp [hres, hcc], ?_, ?_⟩
      · intro r hr
        rw [hres] at hr
        exact Option.noConfusion hr
      · intro comp hcomp _ _
        exact Option.noConfusion hcomp
    · obtain ⟨ch, hch⟩ := compoundConstruction_is_compound K _ comp hcc
      subst hch
      have hres : safeCreateAndUniteCompound K paths =
          (match safeUnite K (Item.compound ch) (Item.compound ch) with
            | some (Item.compound united) => some (Item.compound united)
            | _ => some (Item.compound ch)) := by
        show (if (paths.filter fun p => isValidPath (some (Item.path p))).length = 0
            then none
            else
              match compoundConstruction K
                  (paths.filter fun p => isValidPath (some (Item.path p))) with
              | none => none
              | some compound =>
                match safeUnite K compound compound with
                | some (Item.compound united) => some (Item.compound united)
                | _ => some compound) = _
        rw [if_neg hvp, hcc]
      refine ⟨?_, ?_, ?_⟩
      · rw [hres]
        constructor
        · intro hnone
          rcases hu : safeUnite K (Item.compound ch) (Item.compound ch) with _ | item
          · rw [hu] at hnone
            simp at hnone
          · rcases item with q | uch | gch | _ <;> rw [hu] at hnone <;> simp at hnone
        · rintro (h | h)
          · exact absurd h hvp
          · exact Option.noConfusion h
      · intro r hr
        rw [hres] at hr
        rcases hu : safeUnite K (Item.compound ch) (Item.compound ch) with _ | item
        · rw [hu] at hr
          injection hr with he
          exact ⟨ch, he.symm⟩
        · rcases item with q | uch | gch | _ <;> rw [hu] at hr <;> injection hr with he
          · exact ⟨ch, he.symm⟩
          · exact ⟨uch, he.symm⟩
          · exact ⟨ch, he.symm⟩
          · exact ⟨ch, he.symm⟩
      · intro comp' hcomp' _ hno
        injection hcomp' with he
        subst he
        rw [hres]
        rcases hu : safeUnite K (Item.compound ch) (Item.compound ch) with _ | item
        · try rw [hu]
          rfl
        · rcases item with q | uch | gch | _
          · try rw [hu]
            rfl
          · exact absurd hu (hno uch)
          · try rw [hu]
            rfl
          · try rw [hu]
            rfl

/-- C10 witness: on the singleton valid triangle, the result is a
compound. -/
theorem safeCreateAndUniteCompound_shape_witness :
    ∃ ch, safeCreateAndUniteCompound K0 [tri] = some (Item.compound ch) := by
  obtain ⟨ch, hch⟩ := (safeCreateAndUniteCompound_shape K0 [tri]).2.1
    (Item.compound (some [Item.path tri])) rfl
  exact ⟨ch, by rw [show safeCreateAndUniteCompound K0 [tri] =
    some (Item.compound (some [Item.path tri])) from rfl, hch]⟩

/-- C1 counterexample: on the parsed input holding exactly one open
triangular valid path, preflight does report one warning-severity
issue, but also one error-severity issue (`noClosedPaths`), and
`passed` is false - refuting "zero error-severity issues" and
"`passed` is true". -/
theorem preflight_one_open_triangle_counterexample :
    (preflightCheck K0 parsedTri settingsZero).passed = false ∧
    countSeverity Severity.error (preflightCheck K0 parsedTri settingsZero).issues = 1 ∧
    countSeverity Severity.warning (preflightCheck K0 parsedTri settingsZero).issues = 1 := by
  decide

/-- C1 amended: preflight on an input whose parsed path set is exactly
one open (3-segment) valid path - with no self-intersections, area not
below the islands threshold, and a bounding box between the small- and
large-size warning cutoffs - reports exactly the open-path `warning`
and the no-closed-paths `error` (one warning, one error), and `passed`
is false, because zero closed paths with open paths present is an
error. -/
theorem preflight_one_open_triangle (K : Kernel) (p : PathData) (bb : Rect)
    (cp : Option Item) (settings : ProfileSettings)
    (hval : isValidPath (some (Item.path p)) = true)
    (hopen : p.closed = false)
    (hsegs : p.segCount = 3)
    (hint : safeGetIntersections K p = 0)
    (htiny : JNum.jlt (JNum.jabs p.area) (JNum.num settings.removeIslandsThreshold) = false)
    (hlarge : JNum.jlt (JNum.num 300) (JNum.jmax bb.width bb.height) = false)
    (hsmall : JNum.jlt (JNum.jmax bb.width bb.height) (JNum.num 5) = false) :
    (preflightCheck K ⟨[p], bb, cp⟩ settings).issues =
      [⟨Severity.warning, IssueMsg.openPathsFound 1⟩,
       ⟨Severity.error, IssueMsg.noClosedPaths⟩] ∧
    countSeverity Severity.warning (preflightCheck K ⟨[p], bb, cp⟩ settings).issues = 1 ∧
    countSeverity Severity.error (preflightCheck K ⟨[p], bb, cp⟩ settings).issues = 1 ∧
    (preflightCheck K ⟨[p], bb, cp⟩ settings).passed = false := by
  have hres : preflightCheck K ⟨[p], bb, cp⟩ settings =
      ⟨false,
       [⟨Severity.warning, IssueMsg.openPathsFound 1⟩,
        ⟨Severity.error, IssueMsg.noClosedPaths⟩],
       ⟨1, 0, 1, 3, ⟨bb.width, bb.height⟩, false, 0⟩⟩ := by
    unfold preflightCheck
    simp [hval, hopen, hsegs, hint, htiny, hlarge, hsmall,
      eq_false (by decide : ¬ (500 < mkRat 3 1))]
    norm_num
  rw [hres]
  exact ⟨rfl, rfl, rfl, rfl⟩

/-- C1 witness: the amended statement at the concrete open triangle. -/
theorem preflight_one_open_triangle_witness :
    (preflightCheck K0 ⟨[tri], ⟨JNum.num 10, JNum.num 10⟩, none⟩ settingsZero).passed = false ∧
    countSeverity Severity.error
      (preflightCheck K0 ⟨[tri], ⟨JNum.num 10, JNum.num 10⟩, none⟩ settingsZero).issues = 1 := by
  have h := preflight_one_open_triangle K0 tri ⟨JNum.num 10, JNum.num 10⟩ none settingsZero
    (by decide) (by decide) (by decide) (by decide) (by decide) (by decide) (by decide)
  exact ⟨h.2.2.2, h.2.2.1⟩

/-- A kernel whose simplify preserves the closed flag lets
`safeSimplify` preserve it too. -/
theorem safeSimplify_closed (K : Kernel) (q : PathData) (t : ℚ)
    (hsimp : ∀ r t', (K.simplifyEff r t').after.closed = r.closed) :
    (safeSimplify K q t).closed = q.closed := by
  unfold safeSimplify
  split
  · rfl
  · rcases hse : K.simplifyEff q t with r | r
    · have hc := hsimp q t
      rw [hse] at hc
      show (match safePaperOp itemView (OpResult.ok (Item.path r)) with
        | some _ => r
        | none => r).closed = q.closed
      cases safePaperOp itemView (OpResult.ok (Item.path r)) <;>
        simpa [MutResult.after] using hc
    · have hc := hsimp q t
      rw [hse] at hc
      simpa [MutResult.after] using hc

/-- On a valid open path whose kernel `closePath` sets the closed flag,
`safeClosePath` returns the closed-flag-set state. -/
theorem safeClosePath_sets_closed (K : Kernel) (p : PathData)
    (hval : isValidPath (some (Item.path p)) = true)
    (hopen : p.closed = false)
    (hclose : K.closePathEff p = MutResult.ok { p with closed := true }) :
    safeClosePath K p = { p with closed := true } := by
  unfold safeClosePath
  rw [if_neg (by simp [hval]), if_neg (by simp [hopen]), hclose]
  show (match safePaperOp itemView (OpResult.ok (Item.path { p with closed := true })) with
    | some _ => { p with closed := true }
    | none => { p with closed := true }) = { p with closed := true }
  cases safePaperOp itemView (OpResult.ok (Item.path { p with closed := true })) <;> rfl

/-- The in-place close/simplify effect leaves the path closed whenever
the kernel's `closePath` closes it and its simplify preserves the
closed flag. -/
theorem closeSimplifyEffect_closed (K : Kernel) (tol : ℚ) (p : PathData)
    (hval : isValidPath (some (Item.path p)) = true)
    (hopen : p.closed = false)
    (hclose : K.closePathEff p = MutResult.ok { p with closed := true })
    (hsimp : ∀ r t', (K.simplifyEff r t').after.closed = r.closed) :
    (closeSimplifyEffect K tol p).closed = true := by
  unfold closeSimplifyEffect
  rw [safeClosePath_sets_closed K p hval hopen hclose]
  show (if (!isValidPath (some (Item.path { p with closed := true }))) = true
      then { p with closed := true }
      else if 0 < tol then safeSimplify K { p with closed := true } tol
      else { p with closed := true }).closed = true
  split
  · rfl
  · split
    · rw [safeSimplify_closed K _ _ hsimp]
    · rfl

/-- Mapping a function that moves some member of a list changes the
list. -/
theorem map_ne_of_mem {α : Type} (f : α → α) (l : List α) (x : α)
    (hx : x ∈ l) (hfx : f x ≠ x) : l.map f ≠ l := by
  induction l with
  | nil => cases hx
  | cons a t ih =>
    rcases List.mem_cons.mp hx with h | h
    · subst h
      intro hcontra
      rw [List.map_cons] at hcontra
      injection hcontra with h1 h2
      exact hfx h1
    · intro hcontra
      rw [List.map_cons] at hcontra
      injection hcontra with h1 h2
      exact ih h h2

/-- C4 counterexample: on the parsed input holding the open triangle,
running `processPaths` (with the spec-modelled kernel whose `closePath`
closes the path in place) leaves `parsed.paths` holding a closed
triangle - structurally different from what the caller passed in. -/
theorem processPathsPost_counterexample :
    processPathsPost K0 parsedTri settingsZero ≠ parsedTri.paths := by
  decide

/-- C4 amended: `processPaths` does not operate on independent copies -
`safeClosePath`/`safeSimplify` mutate the `Path` objects of
`parsed.paths` in place.  Whenever the input holds a valid open path,
the kernel's `closePath` marks it closed, and simplify preserves the
closed flag, the post-state of `parsed.paths` differs from its
pre-state. -/
theorem processPaths_mutates_input (K : Kernel) (parsed : ParsedSVG)
    (settings : ProfileSettings) (p : PathData)
    (hmem : p ∈ parsed.paths)
    (hval : isValidPath (some (Item.path p)) = true)
    (hopen : p.closed = false)
    (hclose : K.closePathEff p = MutResult.ok { p with closed := true })
    (hsimp : ∀ r t', (K.simplifyEff r t').after.closed = r.closed) :
    processPathsPost K parsed settings ≠ parsed.paths := by
  unfold processPathsPost
  apply map_ne_of_mem _ _ p hmem
  show (if isValidPath (some (Item.path p)) = true
    then closeSimplifyEffect K settings.simplifyTolerance p else p) ≠ p
  rw [if_pos hval]
  intro hcontra
  have hc := closeSimplifyEffect_closed K settings.simplifyTolerance p hval hopen hclose hsimp
  rw [hcontra, hopen] at hc
  exact Bool.noConfusion hc

/-- C4 witness: the amended statement at a concrete two-path input
(one invalid path, one valid open triangle) with simplify enabled. -/
theorem processPaths_mutates_input_witness :
    processPathsPost K0 ⟨[pBad, tri], ⟨JNum.num 10, JNum.num 10⟩, none⟩ settingsTol ≠
      [pBad, tri] := by
  exact processPaths_mutates_input K0 ⟨[pBad, tri], ⟨JNum.num 10, JNum.num 10⟩, none⟩
    settingsTol tri (by decide) (by decide) (by decide) (by decide)
    (fun r t' => rfl)
